import Mathlib

/-!
Shallow embedding of the handcricket_functions consistency protocol:
the identity-reservation handlers (Strategy A over the realtime database
in functions/health.js, Strategy B over the document store in part_002),
the queue-membership handlers (quickMatch.js, part_002), and the shared
authorization gate (utils/auth.js).  Handlers are modelled as pure
functions from an environment (store faults, external interference,
server timestamps), a call context and a store state to a result, a
final store state and a trace of store events.
-/

namespace HandCricket

/-- Error categories of HttpsError as used by the handlers. -/
inductive ErrCode
  | unauthenticated
  | failedPrecondition
  | invalidArgument
  | alreadyExists
  | internal
deriving DecidableEq, Repr

/-- A classified HttpsError: category plus user-facing message. -/
structure HttpsError where
  code : ErrCode
  message : String
deriving DecidableEq, Repr

/-- A JavaScript error value as observed by a catch block: either an
already-classified HttpsError or any other thrown value carrying an
optional code string and a message. -/
inductive JsError
  | httpsError (e : HttpsError)
  | jsError (code : Option String) (message : String)
deriving DecidableEq, Repr

/-- Document stored at usernames/{username}. -/
structure UsernameDoc where
  created_at : Nat
deriving DecidableEq, Repr

/-- Document stored at users/{uid}. -/
structure UserDoc where
  created_at : Nat
  username : String
  email_address : String
deriving DecidableEq, Repr

/-- Document stored at quick_matchmaking_queue/{uid}. -/
structure QueueDoc where
  uid : String
  created_at : Nat
  status : String
deriving DecidableEq, Repr

/-- The three keyspaces touched by the protocol, plus the presence side
channel read by quickMatch. -/
structure StoreState where
  usernames : List (String × UsernameDoc)
  users : List (String × UserDoc)
  presence : List String
  queue : List (String × QueueDoc)
deriving DecidableEq, Repr

/-- Point read of a keyspace modelled as an association list. -/
def lookupKey {α : Type} (l : List (String × α)) (k : String) : Option α :=
  (l.find? (fun p => p.1 == k)).map Prod.snd

/-- Point delete of a key. -/
def removeKey {α : Type} (l : List (String × α)) (k : String) : List (String × α) :=
  l.filter (fun p => p.1 != k)

/-- Store and gate events emitted by a handler run, in order. -/
inductive Event
  | getUserRecord (uid : String)
  | readUsers (uid : String)
  | readUsernames (name : String)
  | txnUsernameCommit (name : String) (ts : Nat)
  | txnUsernameAbort (name : String)
  | txnUsernameFault (name : String)
  | txnUserCommit (uid : String)
  | txnUserAbort (uid : String)
  | txnUserFault (uid : String)
  | removeUsername (name : String)
  | txnBCommit (uid : String) (name : String) (ts : Nat)
  | txnBUserExists (uid : String)
  | txnBUsernameTaken (name : String)
  | txnBFault (uid : String)
  | readPresence (uid : String)
  | readQueue (uid : String)
  | setQueue (uid : String)
  | deleteQueue (uid : String)
  | sleep (ms : Nat)
deriving DecidableEq, Repr

/-- Events that mutate (or attempt to mutate) a keyspace. -/
def isMutation : Event → Bool
  | .txnUsernameCommit _ _ => true
  | .txnUserCommit _ => true
  | .removeUsername _ => true
  | .txnBCommit _ _ _ => true
  | .setQueue _ => true
  | .deleteQueue _ => true
  | _ => false

/-- Events that access the store at all (the auth-gate lookup and sleeps
are not store accesses). -/
def isStoreAccess : Event → Bool
  | .getUserRecord _ => false
  | .sleep _ => false
  | _ => true

/-- Events that touch the users keyspace. -/
def touchesUsers : Event → Bool
  | .readUsers _ => true
  | .txnUserCommit _ => true
  | .txnUserAbort _ => true
  | .txnUserFault _ => true
  | .txnBCommit _ _ _ => true
  | .txnBUserExists _ => true
  | .txnBFault _ => true
  | _ => false

/-- Is this event a sleep of the given duration. -/
def isSleep (ms : Nat) : Event → Bool
  | .sleep m => m == ms
  | _ => false

/-- Number of sleep events of a given duration in a trace. -/
def countSleeps (ms : Nat) (tr : List Event) : Nat :=
  (tr.filter (isSleep ms)).length

/-- Number of delete calls against the queue keyspace in a trace. -/
def countDeletes (tr : List Event) : Nat :=
  (tr.filter (fun e => match e with | .deleteQueue _ => true | _ => false)).length

/-- Number of reservation-transaction attempts (Strategy A) in a trace. -/
def countUsernameTxns (tr : List Event) : Nat :=
  (tr.filter (fun e => match e with
    | .txnUsernameCommit _ _ => true
    | .txnUsernameAbort _ => true
    | .txnUsernameFault _ => true
    | _ => false)).length

/-- Number of whole-transaction attempts (Strategy B) in a trace. -/
def countBTxns (tr : List Event) : Nat :=
  (tr.filter (fun e => match e with
    | .txnBCommit _ _ _ => true
    | .txnBUserExists _ => true
    | .txnBUsernameTaken _ => true
    | .txnBFault _ => true
    | _ => false)).length

/-- Result of the firebase auth record lookup in the gate. -/
structure UserRecord where
  emailVerified : Bool
  email : String
deriving DecidableEq, Repr

/-- Callable context: App Check presence, auth uid, and the outcome the
auth service returns for getUser. -/
structure CallCtx where
  app : Bool
  auth : Option String
  getUser : Except JsError UserRecord

/-- Callable input: data.username, none when data is absent or
data.username is not a string. -/
structure CallInput where
  username : Option String
deriving DecidableEq, Repr

/-- Success payloads are modelled uniformly; fields the handler does not
put in its returned object are none. -/
structure Response where
  success : Bool
  username : Option String
  uid : Option String
deriving DecidableEq, Repr

/-- Head character rule of the username regex: lowercase ASCII letter. -/
def isUsernameHeadChar (c : Char) : Bool :=
  decide ('a' ≤ c) && decide (c ≤ 'z')

/-- Tail character rule: lowercase letter, digit or underscore. -/
def isUsernameTailChar (c : Char) : Bool :=
  (decide ('a' ≤ c) && decide (c ≤ 'z'))
    || (decide ('0' ≤ c) && decide (c ≤ '9'))
    || c == '_'

/-- The whitespace class stripped by the javascript trim method (the
characters relevant to this protocol). -/
def isJsSpace (c : Char) : Bool :=
  c == ' ' || c == '\t' || c == '\n' || c == '\r'

/-- data.username.trim() from the source: strip leading and trailing
whitespace. -/
def jsTrim (s : String) : String :=
  ⟨((s.data.dropWhile isJsSpace).reverse.dropWhile isJsSpace).reverse⟩

/-- The test of the regex from the source: a lowercase letter followed by
7 to 14 characters from lowercase letters, digits and underscore. -/
def usernameRegexTest (s : String) : Bool :=
  match s.data with
  | [] => false
  | c :: cs =>
    isUsernameHeadChar c && cs.all isUsernameTailChar
      && decide (7 ≤ cs.length) && decide (cs.length ≤ 14)

/-- utils/auth.js validateAuthAndEmail: App Check, auth token, auth
record lookup, email verification.  Returns the caller uid on success
together with the gate events it performed. -/
def validateAuthAndEmail (ctx : CallCtx) :
    Except HttpsError String × List Event :=
  if !ctx.app then
    (.error ⟨.failedPrecondition, "App Check verification failed"⟩, [])
  else
    match ctx.auth with
    | none => (.error ⟨.unauthenticated, "Authentication required"⟩, [])
    | some uid =>
      match ctx.getUser with
      | .error _ =>
        (.error ⟨.internal, "Failed to retrieve user information"⟩,
          [.getUserRecord uid])
      | .ok r =>
        if !r.emailVerified then
          (.error ⟨.failedPrecondition, "use a verified email address to continue"⟩,
            [.getUserRecord uid])
        else
          (.ok uid, [.getUserRecord uid])

/-- Environment of the Strategy A handler (functions/health.js): per
attempt, possible interference by a concurrent writer of the username
key, transient faults of the two transactions, the server timestamp a
reservation commit resolves to, and whether the compensating remove
throws. -/
structure EnvA where
  extWriteBefore : Nat → Option Nat
  usernameTxnFault : Nat → Bool
  usernameServerTime : Nat → Nat
  userTxnFault : Nat → Bool
  removeFault : Bool

/-- A concurrent writer may create usernames/{name} just before an
attempt of the reservation loop; create-if-absent semantics. -/
def extApply (env : EnvA) (attempt : Nat) (name : String) (st : StoreState) :
    StoreState :=
  match env.extWriteBefore attempt with
  | some t =>
    if (lookupKey st.usernames name).isNone then
      { st with usernames := (name, ⟨t⟩) :: st.usernames }
    else st
  | none => st

/-- Step 6 of health.js: the reservation loop.  On each attempt after
the first, re-read the username key and fail fast with already-exists if
it now exists; otherwise run the create-if-absent transaction.  A fault
or an abort at the last attempt yields internal; earlier ones continue
to the next attempt.  Returns the committed created_at timestamp. -/
def usernameLoop (env : EnvA) (name : String) :
    List Nat → StoreState → Except HttpsError Nat × StoreState × List Event
  | [], st => (.error ⟨.internal, "Something is wrong"⟩, st, [])
  | attempt :: rest, st =>
    let st1 := extApply env attempt name st
    let recheckEvents : List Event :=
      if decide (1 < attempt) then [.readUsernames name] else []
    if decide (1 < attempt) && (lookupKey st1.usernames name).isSome then
      (.error ⟨.alreadyExists, "username already taken"⟩, st1, recheckEvents)
    else if env.usernameTxnFault attempt then
      if rest.isEmpty then
        (.error ⟨.internal, "Something is wrong"⟩, st1,
          recheckEvents ++ [.txnUsernameFault name])
      else
        let next := usernameLoop env name rest st1
        (next.1, next.2.1, recheckEvents ++ [.txnUsernameFault name] ++ next.2.2)
    else
      match lookupKey st1.usernames name with
      | some _ =>
        if rest.isEmpty then
          (.error ⟨.internal, "Something is wrong"⟩, st1,
            recheckEvents ++ [.txnUsernameAbort name])
        else
          let next := usernameLoop env name rest st1
          (next.1, next.2.1, recheckEvents ++ [.txnUsernameAbort name] ++ next.2.2)
      | none =>
        let ts := env.usernameServerTime attempt
        (.ok ts,
          { st1 with usernames := (name, ⟨ts⟩) :: st1.usernames },
          recheckEvents ++ [.txnUsernameCommit name ts])

/-- Step 8 of health.js: best-effort compensating delete of
usernames/{name}; a throw is caught and only logged. -/
def compensateRemove (env : EnvA) (name : String) (st : StoreState) :
    StoreState × List Event :=
  if env.removeFault then (st, [.removeUsername name])
  else ({ st with usernames := removeKey st.usernames name }, [.removeUsername name])

/-- Step 7 of health.js: the UserIdentity creation loop, with a 500ms
sleep before each attempt after the first; on exhaustion it performs the
compensating delete and yields internal with the capital-W message. -/
def userLoop (env : EnvA) (uid name email : String) (ts : Nat) :
    List Nat → StoreState → Except HttpsError Unit × StoreState × List Event
  | [], st =>
    let cleanup := compensateRemove env name st
    (.error ⟨.internal, "Something is Wrong"⟩, cleanup.1, cleanup.2)
  | attempt :: rest, st =>
    let sleepEvents : List Event :=
      if decide (1 < attempt) then [.sleep 500] else []
    if env.userTxnFault attempt then
      if rest.isEmpty then
        let cleanup := compensateRemove env name st
        (.error ⟨.internal, "Something is Wrong"⟩, cleanup.1,
          sleepEvents ++ [.txnUserFault uid] ++ cleanup.2)
      else
        let next := userLoop env uid name email ts rest st
        (next.1, next.2.1, sleepEvents ++ [.txnUserFault uid] ++ next.2.2)
    else
      match lookupKey st.users uid with
      | some _ =>
        if rest.isEmpty then
          let cleanup := compensateRemove env name st
          (.error ⟨.internal, "Something is Wrong"⟩, cleanup.1,
            sleepEvents ++ [.txnUserAbort uid] ++ cleanup.2)
        else
          let next := userLoop env uid name email ts rest st
          (next.1, next.2.1, sleepEvents ++ [.txnUserAbort uid] ++ next.2.2)
      | none =>
        (.ok (),
          { st with users := (uid, ⟨ts, name, email⟩) :: st.users },
          sleepEvents ++ [.txnUserCommit uid])

/-- The Strategy A handler createNewUser from functions/health.js: auth
token, auth record lookup, email verification, input validation, the two
existence point reads, the reservation loop, the identity loop, then the
success payload carrying username and uid.  There is no App Check step
in this handler. -/
def createNewUser (env : EnvA) (ctx : CallCtx) (input : CallInput)
    (st : StoreState) :
    Except HttpsError Response × StoreState × List Event :=
  match ctx.auth with
  | none => (.error ⟨.unauthenticated, "Authentication required"⟩, st, [])
  | some uid =>
    match ctx.getUser with
    | .error _ =>
      (.error ⟨.internal, "Failed to retrieve user information"⟩, st,
        [.getUserRecord uid])
    | .ok userRecord =>
      if !userRecord.emailVerified then
        (.error ⟨.failedPrecondition, "use a verified email address to continue"⟩,
          st, [.getUserRecord uid])
      else
        match input.username with
        | none =>
          (.error ⟨.invalidArgument, "username is required and must be a string"⟩,
            st, [.getUserRecord uid])
        | some raw =>
          let username := (jsTrim raw)
          if !usernameRegexTest username then
            (.error ⟨.invalidArgument, "username rules failed"⟩, st,
              [.getUserRecord uid])
          else if (lookupKey st.users uid).isSome then
            (.error ⟨.alreadyExists, "user already exists"⟩, st,
              [.getUserRecord uid, .readUsers uid])
          else if (lookupKey st.usernames username).isSome then
            (.error ⟨.alreadyExists, "username already taken"⟩, st,
              [.getUserRecord uid, .readUsers uid, .readUsernames username])
          else
            match usernameLoop env username [1, 2, 3] st with
            | (.error e, st1, tr1) =>
              (.error e, st1,
                [.getUserRecord uid, .readUsers uid, .readUsernames username] ++ tr1)
            | (.ok ts, st1, tr1) =>
              match userLoop env uid username userRecord.email ts [1, 2, 3] st1 with
              | (.error e, st2, tr2) =>
                (.error e, st2,
                  [.getUserRecord uid, .readUsers uid, .readUsernames username]
                    ++ tr1 ++ tr2)
              | (.ok _, st2, tr2) =>
                (.ok ⟨true, some username, some uid⟩, st2,
                  [.getUserRecord uid, .readUsers uid, .readUsernames username]
                    ++ tr1 ++ tr2)

/-- Environment of the Strategy B handler (part_002): per attempt, a
transient infrastructure fault of the whole transaction, and the server
timestamp the sentinel resolves to when the attempt commits. -/
structure EnvB where
  txnFault : Nat → Bool
  serverTime : Nat → Nat

/-- Step 6 of part_002: the whole-transaction retry loop.  Inside the
transaction body: a user document raises a plain error (retried, not an
HttpsError), an existing username document raises the already-exists
HttpsError that is rethrown without retry, and otherwise both documents
are written with the same server timestamp.  A 500ms sleep precedes each
attempt after the first; exhaustion yields internal. -/
def bLoop (env : EnvB) (uid name email : String) :
    List Nat → StoreState → Except HttpsError Unit × StoreState × List Event
  | [], st => (.error ⟨.internal, "Something is wrong"⟩, st, [])
  | attempt :: rest, st =>
    let sleepEvents : List Event :=
      if decide (1 < attempt) then [.sleep 500] else []
    if env.txnFault attempt then
      if rest.isEmpty then
        (.error ⟨.internal, "Something is wrong"⟩, st,
          sleepEvents ++ [.txnBFault uid])
      else
        let next := bLoop env uid name email rest st
        (next.1, next.2.1, sleepEvents ++ [.txnBFault uid] ++ next.2.2)
    else if (lookupKey st.users uid).isSome then
      if rest.isEmpty then
        (.error ⟨.internal, "Something is wrong"⟩, st,
          sleepEvents ++ [.txnBUserExists uid])
      else
        let next := bLoop env uid name email rest st
        (next.1, next.2.1, sleepEvents ++ [.txnBUserExists uid] ++ next.2.2)
    else if (lookupKey st.usernames name).isSome then
      (.error ⟨.alreadyExists, s!"username {name} already taken"⟩, st,
        sleepEvents ++ [.txnBUsernameTaken name])
    else
      let ts := env.serverTime attempt
      (.ok (),
        { st with
            usernames := (name, ⟨ts⟩) :: st.usernames,
            users := (uid, ⟨ts, name, email⟩) :: st.users },
        sleepEvents ++ [.txnBCommit uid name ts])

/-- The Strategy B handler createNewUserHandler from part_002: App
Check, auth token, auth record lookup, email verification, input
validation, the user existence point read, then the transaction loop.
Its success payload is success only, with no username and no uid. -/
def createNewUserHandler (env : EnvB) (ctx : CallCtx) (input : CallInput)
    (st : StoreState) :
    Except HttpsError Response × StoreState × List Event :=
  if !ctx.app then
    (.error ⟨.failedPrecondition, "App Check verification failed"⟩, st, [])
  else
    match ctx.auth with
    | none => (.error ⟨.unauthenticated, "Authentication required"⟩, st, [])
    | some uid =>
      match ctx.getUser with
      | .error _ =>
        (.error ⟨.internal, "Failed to retrieve user information"⟩, st,
          [.getUserRecord uid])
      | .ok userRecord =>
        if !userRecord.emailVerified then
          (.error ⟨.failedPrecondition, "use a verified email address to continue"⟩,
            st, [.getUserRecord uid])
        else
          match input.username with
          | none =>
            (.error ⟨.invalidArgument, "username is required and must be a string"⟩,
              st, [.getUserRecord uid])
          | some raw =>
            let username := (jsTrim raw)
            if !usernameRegexTest username then
              (.error ⟨.invalidArgument, "username rules failed"⟩, st,
                [.getUserRecord uid])
            else if (lookupKey st.users uid).isSome then
              (.error ⟨.alreadyExists, "user already exists"⟩, st,
                [.getUserRecord uid, .readUsers uid])
            else
              match bLoop env uid username userRecord.email [1, 2, 3] st with
              | (.error e, st1, tr1) =>
                (.error e, st1, [.getUserRecord uid, .readUsers uid] ++ tr1)
              | (.ok _, st1, tr1) =>
                (.ok ⟨true, none, none⟩, st1,
                  [.getUserRecord uid, .readUsers uid] ++ tr1)

/-- The quickMatch handler (handlers/quickMatch.js): gate, presence
existence check, queue existence check, then an unconditional set of the
queue document with status waiting. -/
def quickMatchHandler (ctx : CallCtx) (serverTime : Nat) (st : StoreState) :
    Except HttpsError Response × StoreState × List Event :=
  match validateAuthAndEmail ctx with
  | (.error e, tr) => (.error e, st, tr)
  | (.ok uid, tr) =>
    if !(st.presence.contains uid) then
      (.error ⟨.failedPrecondition, "User Not Online"⟩, st,
        tr ++ [.readPresence uid])
    else if (lookupKey st.queue uid).isSome then
      (.error ⟨.alreadyExists, "User Already Waiting to be matched"⟩, st,
        tr ++ [.readPresence uid, .readQueue uid])
    else
      (.ok ⟨true, none, none⟩,
        { st with
            queue := (uid, ⟨uid, serverTime, "waiting"⟩) :: removeKey st.queue uid },
        tr ++ [.readPresence uid, .readQueue uid, .setQueue uid])

/-- A plain thrown store error as classified by deleteWithRetry: code
string and message. -/
structure JsErrInfo where
  code : Option String
  message : String
deriving DecidableEq, Repr

/-- Substring test over character lists, modelling the includes method
of javascript strings. -/
def listIncludes (l sub : List Char) : Bool :=
  (List.range (l.length + 1)).any (fun i => (l.drop i).take sub.length == sub)

/-- s.includes(sub) for strings. -/
def strIncludes (s sub : String) : Bool :=
  listIncludes s.data sub.data

/-- The contention classification from deleteWithRetry in part_002:
aborted, failed-precondition or unavailable codes, or a message
mentioning concurrent or locked. -/
def isLockedError (e : JsErrInfo) : Bool :=
  e.code == some "aborted"
    || e.code == some "failed-precondition"
    || e.code == some "unavailable"
    || strIncludes e.message "concurrent"
    || strIncludes e.message "locked"

/-- Environment of the delete loop: the fault, if any, of the delete
call at each attempt. -/
structure DelEnv where
  deleteFault : Nat → Option JsErrInfo

/-- deleteWithRetry from part_002: each attempt point-reads the queue
document, treats absence as success, attempts the delete, and on a
contended failure before the last attempt sleeps and retries; any other
failure, or contention at the last attempt, returns false. -/
def deleteWithRetry (env : DelEnv) (uid : String) (retryDelayMs : Nat) :
    List Nat → StoreState → Bool × StoreState × List Event
  | [], st => (false, st, [])
  | attempt :: rest, st =>
    if (lookupKey st.queue uid).isNone then
      (true, st, [.readQueue uid])
    else
      match env.deleteFault attempt with
      | none =>
        (true, { st with queue := removeKey st.queue uid },
          [.readQueue uid, .deleteQueue uid])
      | some e =>
        if isLockedError e && !rest.isEmpty then
          let next := deleteWithRetry env uid retryDelayMs rest st
          (next.1, next.2.1,
            [.readQueue uid, .deleteQueue uid, .sleep retryDelayMs] ++ next.2.2)
        else
          (false, st, [.readQueue uid, .deleteQueue uid])

/-- Attempt numbers 1..n, the loop counter of the source. -/
def attemptList (n : Nat) : List Nat :=
  (List.range n).map (fun i => i + 1)

/-- The cancelQuickMatch handler from part_002: gate, then
deleteWithRetry with 10 attempts and 500ms delay, then success
regardless of the deletion result. -/
def cancelQuickMatchHandler (env : DelEnv) (ctx : CallCtx) (st : StoreState) :
    Except HttpsError Response × StoreState × List Event :=
  match validateAuthAndEmail ctx with
  | (.error e, tr) => (.error e, st, tr)
  | (.ok uid, tr) =>
    let del := deleteWithRetry env uid 500 (attemptList 10) st
    (.ok ⟨true, none, none⟩, del.2.1, tr ++ del.2.2)

lemma lookupKey_cons_self {α : Type} (l : List (String × α)) (k : String) (v : α) :
    lookupKey ((k, v) :: l) k = some v := by
  simp [lookupKey, List.find?]

lemma lookupKey_removeKey {α : Type} (l : List (String × α)) (k : String) :
    lookupKey (removeKey l k) k = none := by
  induction l with
  | nil => rfl
  | cons x xs ih =>
    by_cases h : (x.1 == k) = true
    · simpa [removeKey, List.filter_cons, bne, h] using ih
    · have h0 : (x.1 == k) = false := by simp [h]
      have hne : (x.1 != k) = true := by simp [bne, h0]
      simp only [removeKey, List.filter_cons, hne, if_true]
      simp only [lookupKey, List.find?_cons, h0]
      exact ih

lemma extApply_users (env : EnvA) (a : Nat) (n : String) (st : StoreState) :
    (extApply env a n st).users = st.users := by
  unfold extApply
  cases env.extWriteBefore a with
  | none => rfl
  | some t => by_cases h : (lookupKey st.usernames n).isNone = true <;> simp [h]

lemma usernameLoop_commit_first (env : EnvA) (name : String) (st : StoreState)
    (hext1 : env.extWriteBefore 1 = none)
    (hf1 : env.usernameTxnFault 1 = false)
    (hname : lookupKey st.usernames name = none) :
    usernameLoop env name [1, 2, 3] st =
      (.ok (env.usernameServerTime 1),
        { st with usernames := (name, ⟨env.usernameServerTime 1⟩) :: st.usernames },
        [.txnUsernameCommit name (env.usernameServerTime 1)]) := by
  rw [usernameLoop]
  simp [extApply, hext1, hf1, hname]

lemma userLoop_commit_first (env : EnvA) (uid name email : String) (ts : Nat)
    (st : StoreState)
    (huf1 : env.userTxnFault 1 = false)
    (huser : lookupKey st.users uid = none) :
    userLoop env uid name email ts [1, 2, 3] st =
      (.ok (), { st with users := (uid, ⟨ts, name, email⟩) :: st.users },
        [.txnUserCommit uid]) := by
  rw [userLoop]
  simp [huf1, huser]

lemma userLoop_all_fault (env : EnvA) (uid name email : String) (ts : Nat)
    (st : StoreState)
    (h1 : env.userTxnFault 1 = true) (h2 : env.userTxnFault 2 = true)
    (h3 : env.userTxnFault 3 = true) :
    userLoop env uid name email ts [1, 2, 3] st =
      (.error ⟨.internal, "Something is Wrong"⟩,
        (compensateRemove env name st).1,
        [.txnUserFault uid, .sleep 500, .txnUserFault uid, .sleep 500,
          .txnUserFault uid] ++ (compensateRemove env name st).2) := by
  rw [userLoop, userLoop, userLoop]
  simp [h1, h2, h3]

lemma createNewUser_happy (env : EnvA) (ctx : CallCtx) (input : CallInput)
    (st : StoreState) (uid : String) (r : UserRecord) (raw : String)
    (hauth : ctx.auth = some uid) (hget : ctx.getUser = .ok r)
    (hver : r.emailVerified = true) (hraw : input.username = some raw)
    (hval : usernameRegexTest (jsTrim raw) = true)
    (huser : lookupKey st.users uid = none)
    (hname : lookupKey st.usernames (jsTrim raw) = none)
    (hext1 : env.extWriteBefore 1 = none)
    (hf1 : env.usernameTxnFault 1 = false)
    (huf1 : env.userTxnFault 1 = false) :
    createNewUser env ctx input st =
      (.ok ⟨true, some (jsTrim raw), some uid⟩,
        { st with
            usernames := ((jsTrim raw), ⟨env.usernameServerTime 1⟩) :: st.usernames,
            users := (uid, ⟨env.usernameServerTime 1, (jsTrim raw), r.email⟩) :: st.users },
        [.getUserRecord uid, .readUsers uid, .readUsernames (jsTrim raw),
          .txnUsernameCommit (jsTrim raw) (env.usernameServerTime 1),
          .txnUserCommit uid]) := by
  unfold createNewUser
  rw [hauth, hget, hraw]
  simp only [hver, Bool.not_true]
  rw [usernameLoop_commit_first env (jsTrim raw) st hext1 hf1 hname]
  simp only [hval, huser, hname]
  rw [userLoop_commit_first]
  · simp
  · exact huf1
  · exact huser

lemma createNewUser_userfail_eval (env : EnvA) (ctx : CallCtx) (input : CallInput)
    (st : StoreState) (uid : String) (r : UserRecord) (raw : String)
    (hauth : ctx.auth = some uid) (hget : ctx.getUser = .ok r)
    (hver : r.emailVerified = true) (hraw : input.username = some raw)
    (hval : usernameRegexTest (jsTrim raw) = true)
    (huser : lookupKey st.users uid = none)
    (hname : lookupKey st.usernames (jsTrim raw) = none)
    (hext1 : env.extWriteBefore 1 = none)
    (hf1 : env.usernameTxnFault 1 = false)
    (hu1 : env.userTxnFault 1 = true) (hu2 : env.userTxnFault 2 = true)
    (hu3 : env.userTxnFault 3 = true) :
    createNewUser env ctx input st =
      (.error ⟨.internal, "Something is Wrong"⟩,
        (compensateRemove env (jsTrim raw)
          { st with usernames := ((jsTrim raw), ⟨env.usernameServerTime 1⟩) :: st.usernames }).1,
        [.getUserRecord uid, .readUsers uid, .readUsernames (jsTrim raw),
          .txnUsernameCommit (jsTrim raw) (env.usernameServerTime 1),
          .txnUserFault uid, .sleep 500, .txnUserFault uid, .sleep 500,
          .txnUserFault uid]
          ++ (compensateRemove env (jsTrim raw)
            { st with usernames := ((jsTrim raw), ⟨env.usernameServerTime 1⟩) :: st.usernames }).2) := by
  unfold createNewUser
  rw [hauth, hget, hraw]
  simp only [hver, Bool.not_true]
  rw [usernameLoop_commit_first env (jsTrim raw) st hext1 hf1 hname]
  simp only [hval, huser, hname]
  rw [userLoop_all_fault]
  · simp
  · exact hu1
  · exact hu2
  · exact hu3

lemma usernameLoop_ok (env : EnvA) (name : String) :
    ∀ (atts : List Nat) (st : StoreState) (ts : Nat),
      (usernameLoop env name atts st).1 = Except.ok ts →
      lookupKey (usernameLoop env name atts st).2.1.usernames name = some ⟨ts⟩ ∧
      (usernameLoop env name atts st).2.1.users = st.users := by
  intro atts
  induction atts with
  | nil => intro st ts h; simp [usernameLoop] at h
  | cons attempt rest ih =>
    intro st ts h
    rcases hlk : lookupKey (extApply env attempt name st).usernames name with _ | d
    · cases hf : env.usernameTxnFault attempt with
      | true =>
        cases hre : rest.isEmpty with
        | true => simp [usernameLoop, hlk, hf, hre] at h
        | false =>
          simp only [usernameLoop, hlk, hf, hre] at h ⊢
          simp at h ⊢
          have hrec := ih (extApply env attempt name st) ts h
          exact ⟨hrec.1, hrec.2.trans (extApply_users env attempt name st)⟩
      | false =>
        simp only [usernameLoop, hlk, hf] at h ⊢
        simp at h ⊢
        subst h
        exact ⟨lookupKey_cons_self _ _ _, extApply_users env attempt name st⟩
    · cases hatt : decide (1 < attempt) with
      | true => simp [usernameLoop, hlk, hatt] at h
      | false =>
        cases hf : env.usernameTxnFault attempt with
        | true =>
          cases hre : rest.isEmpty with
          | true => simp [usernameLoop, hlk, hatt, hf, hre] at h
          | false =>
            simp only [usernameLoop, hlk, hatt, hf, hre] at h ⊢
            simp at h ⊢
            have hrec := ih (extApply env attempt name st) ts h
            exact ⟨hrec.1, hrec.2.trans (extApply_users env attempt name st)⟩
        | false =>
          cases hre : rest.isEmpty with
          | true => simp [usernameLoop, hlk, hatt, hf, hre] at h
          | false =>
            simp only [usernameLoop, hlk, hatt, hf, hre] at h ⊢
            simp at h ⊢
            have hrec := ih (extApply env attempt name st) ts h
            exact ⟨hrec.1, hrec.2.trans (extApply_users env attempt name st)⟩

lemma userLoop_ok (env : EnvA) (uid name email : String) (ts : Nat) :
    ∀ (atts : List Nat) (st : StoreState) (u : Unit),
      (userLoop env uid name email ts atts st).1 = Except.ok u →
      lookupKey (userLoop env uid name email ts atts st).2.1.users uid =
        some ⟨ts, name, email⟩ ∧
      (userLoop env uid name email ts atts st).2.1.usernames = st.usernames := by
  intro atts
  induction atts with
  | nil => intro st u h; simp [userLoop] at h
  | cons attempt rest ih =>
    intro st u h
    cases hf : env.userTxnFault attempt with
    | true =>
      cases hre : rest.isEmpty with
      | true => simp [userLoop, hf, hre] at h
      | false =>
        simp only [userLoop, hf, hre] at h ⊢
        simp at h ⊢
        have hrec := ih st u h
        exact hrec
    | false =>
      rcases hlu : lookupKey st.users uid with _ | d
      · simp only [userLoop, hf, hlu] at h ⊢
        simp at h ⊢
        exact lookupKey_cons_self _ _ _
      · cases hre : rest.isEmpty with
        | true => simp [userLoop, hf, hlu, hre] at h
        | false =>
          simp only [userLoop, hf, hlu, hre] at h ⊢
          simp at h ⊢
          exact ih st u h

lemma bLoop_ok (env : EnvB) (uid name email : String) :
    ∀ (atts : List Nat) (st : StoreState) (u : Unit),
      (bLoop env uid name email atts st).1 = Except.ok u →
      ∃ ts,
        lookupKey (bLoop env uid name email atts st).2.1.usernames name = some ⟨ts⟩ ∧
        lookupKey (bLoop env uid name email atts st).2.1.users uid =
          some ⟨ts, name, email⟩ := by
  intro atts
  induction atts with
  | nil => intro st u h; simp [bLoop] at h
  | cons attempt rest ih =>
    intro st u h
    cases hf : env.txnFault attempt with
    | true =>
      cases hre : rest.isEmpty with
      | true => simp [bLoop, hf, hre] at h
      | false =>
        simp only [bLoop, hf, hre] at h ⊢
        simp at h ⊢
        exact ih st u h
    | false =>
      rcases hlu : lookupKey st.users uid with _ | d
      · rcases hln : lookupKey st.usernames name with _ | d2
        · simp only [bLoop, hf, hlu, hln] at h ⊢
          simp at h ⊢
          exact ⟨env.serverTime attempt, lookupKey_cons_self _ _ _,
            lookupKey_cons_self _ _ _⟩
        · simp [bLoop, hf, hlu, hln] at h
      · cases hre : rest.isEmpty with
        | true => simp [bLoop, hf, hlu, hre] at h
        | false =>
          simp only [bLoop, hf, hlu, hre] at h ⊢
          simp at h ⊢
          exact ih st u h

lemma createNewUser_ok_charac (env : EnvA) (ctx : CallCtx) (input : CallInput)
    (st : StoreState) (uid : String) (r : UserRecord) (raw : String)
    (resp : Response)
    (hauth : ctx.auth = some uid) (hget : ctx.getUser = .ok r)
    (hraw : input.username = some raw)
    (h : (createNewUser env ctx input st).1 = .ok resp) :
    resp = ⟨true, some (jsTrim raw), some uid⟩ ∧
    ∃ ts,
      lookupKey (createNewUser env ctx input st).2.1.usernames (jsTrim raw) =
        some ⟨ts⟩ ∧
      lookupKey (createNewUser env ctx input st).2.1.users uid =
        some ⟨ts, (jsTrim raw), r.email⟩ := by
  unfold createNewUser at h ⊢
  rw [hauth, hget, hraw] at h ⊢
  cases hver : r.emailVerified with
  | false => simp [hver] at h
  | true =>
    cases hreg : usernameRegexTest (jsTrim raw) with
    | false => simp [hver, hreg] at h
    | true =>
      rcases hlu : lookupKey st.users uid with _ | d
      swap
      · simp [hver, hreg, hlu] at h
      rcases hln : lookupKey st.usernames (jsTrim raw) with _ | d2
      swap
      · simp [hver, hreg, hlu, hln] at h
      simp only [hver, hreg, hlu, hln, Bool.not_true, Option.isSome_none] at h ⊢
      rcases hUL : usernameLoop env (jsTrim raw) [1, 2, 3] st with ⟨r1, st1, tr1⟩
      simp only [hUL] at h ⊢
      cases r1 with
      | error e => simp at h
      | ok ts =>
        dsimp only at h ⊢
        rcases hUL2 : userLoop env uid (jsTrim raw) r.email ts [1, 2, 3] st1
          with ⟨r2, st2, tr2⟩
        simp only [hUL2] at h ⊢
        cases r2 with
        | error e => simp at h
        | ok u =>
          dsimp only at h ⊢
          simp only [Bool.false_eq_true, if_false] at h ⊢
          have h1 := usernameLoop_ok env (jsTrim raw) [1, 2, 3] st ts (by rw [hUL])
          have h2 := userLoop_ok env uid (jsTrim raw) r.email ts [1, 2, 3] st1 u
            (by rw [hUL2])
          rw [hUL] at h1
          rw [hUL2] at h2
          dsimp only at h1 h2
          refine ⟨by simpa using h.symm, ts, ?_, h2.1⟩
          rw [h2.2]
          exact h1.1

lemma createNewUserHandler_ok_charac (env : EnvB) (ctx : CallCtx)
    (input : CallInput) (st : StoreState) (uid : String) (r : UserRecord)
    (raw : String) (resp : Response)
    (hauth : ctx.auth = some uid) (hget : ctx.getUser = .ok r)
    (hraw : input.username = some raw)
    (h : (createNewUserHandler env ctx input st).1 = .ok resp) :
    resp = ⟨true, none, none⟩ ∧
    ∃ ts,
      lookupKey (createNewUserHandler env ctx input st).2.1.usernames (jsTrim raw) =
        some ⟨ts⟩ ∧
      lookupKey (createNewUserHandler env ctx input st).2.1.users uid =
        some ⟨ts, (jsTrim raw), r.email⟩ := by
  unfold createNewUserHandler at h ⊢
  rw [hauth, hget, hraw] at h ⊢
  cases happ : ctx.app with
  | false => simp [happ] at h
  | true =>
    cases hver : r.emailVerified with
    | false => simp [happ, hver] at h
    | true =>
      cases hreg : usernameRegexTest (jsTrim raw) with
      | false => simp [happ, hver, hreg] at h
      | true =>
        rcases hlu : lookupKey st.users uid with _ | d
        swap
        · simp [happ, hver, hreg, hlu] at h
        simp only [happ, hver, hreg, hlu, Bool.not_true,
          Option.isSome_none] at h ⊢
        rcases hBL : bLoop env uid (jsTrim raw) r.email [1, 2, 3] st
          with ⟨r1, st1, tr1⟩
        simp only [hBL] at h ⊢
        cases r1 with
        | error e => simp at h
        | ok u =>
          dsimp only at h ⊢
          simp only [Bool.false_eq_true, if_false] at h ⊢
          have h1 := bLoop_ok env uid (jsTrim raw) r.email [1, 2, 3] st u
            (by rw [hBL])
          rw [hBL] at h1
          dsimp only at h1
          exact ⟨by simpa using h.symm, h1⟩

lemma countSleeps_append (ms : Nat) (a b : List Event) :
    countSleeps ms (a ++ b) = countSleeps ms a + countSleeps ms b := by
  simp [countSleeps, List.filter_append]

lemma countUsernameTxns_append (a b : List Event) :
    countUsernameTxns (a ++ b) = countUsernameTxns a + countUsernameTxns b := by
  simp [countUsernameTxns, List.filter_append]

lemma countDeletes_append (a b : List Event) :
    countDeletes (a ++ b) = countDeletes a + countDeletes b := by
  simp [countDeletes, List.filter_append]

lemma countBTxns_append (a b : List Event) :
    countBTxns (a ++ b) = countBTxns a + countBTxns b := by
  simp [countBTxns, List.filter_append]

lemma compensateRemove_trace (env : EnvA) (n : String) (st : StoreState) :
    (compensateRemove env n st).2 = [.removeUsername n] := by
  unfold compensateRemove
  cases env.removeFault <;> simp

lemma compensateRemove_users (env : EnvA) (n : String) (st : StoreState) :
    (compensateRemove env n st).1.users = st.users := by
  unfold compensateRemove
  cases env.removeFault <;> simp

lemma compensateRemove_state_noFault (env : EnvA) (n : String) (st : StoreState)
    (h : env.removeFault = false) :
    (compensateRemove env n st).1 =
      { st with usernames := removeKey st.usernames n } := by
  simp [compensateRemove, h]

lemma validateAuthAndEmail_gate_only (ctx : CallCtx) :
    ((validateAuthAndEmail ctx).2).filter isStoreAccess = [] ∧
    ((validateAuthAndEmail ctx).2).filter touchesUsers = [] := by
  rcases ctx with ⟨app, auth, getu⟩
  unfold validateAuthAndEmail
  cases app
  · simp
  · rcases auth with _ | uid
    · simp
    · rcases getu with e | r
      · simp [isStoreAccess, touchesUsers]
      · cases hver : r.emailVerified <;>
          simp [hver, isStoreAccess, touchesUsers]

lemma usernameLoop_no_sleep (env : EnvA) (name : String) :
    ∀ (atts : List Nat) (st : StoreState) (ms : Nat),
      Event.sleep ms ∉ (usernameLoop env name atts st).2.2 := by
  intro atts
  induction atts with
  | nil => intro st ms; simp [usernameLoop]
  | cons attempt rest ih =>
    intro st ms
    cases hatt : decide (1 < attempt) with
    | true =>
      rcases hlk : lookupKey (extApply env attempt name st).usernames name
        with _ | d
      · cases hf : env.usernameTxnFault attempt with
        | true =>
          cases hre : rest.isEmpty with
          | true => simp [usernameLoop, hatt, hlk, hf, hre]
          | false =>
            simp [usernameLoop, hatt, hlk, hf, hre]
            exact ih (extApply env attempt name st) ms
        | false => simp [usernameLoop, hatt, hlk, hf]
      · simp [usernameLoop, hatt, hlk]
    | false =>
      cases hf : env.usernameTxnFault attempt with
      | true =>
        cases hre : rest.isEmpty with
        | true => simp [usernameLoop, hatt, hf, hre]
        | false =>
          simp [usernameLoop, hatt, hf, hre]
          exact ih (extApply env attempt name st) ms
      | false =>
        rcases hlk : lookupKey (extApply env attempt name st).usernames name
          with _ | d
        · simp [usernameLoop, hatt, hf, hlk]
        · cases hre : rest.isEmpty with
          | true => simp [usernameLoop, hatt, hf, hlk, hre]
          | false =>
            simp [usernameLoop, hatt, hf, hlk, hre]
            exact ih (extApply env attempt name st) ms

lemma usernameLoop_txn_bound (env : EnvA) (name : String) :
    ∀ (atts : List Nat) (st : StoreState),
      countUsernameTxns (usernameLoop env name atts st).2.2 ≤ atts.length := by
  intro atts
  induction atts with
  | nil => intro st; simp [usernameLoop, countUsernameTxns]
  | cons attempt rest ih =>
    intro st
    have hrec := ih (extApply env attempt name st)
    have hread : countUsernameTxns [Event.readUsernames name] = 0 := by
      simp [countUsernameTxns]
    have hfaultev : countUsernameTxns [Event.txnUsernameFault name] = 1 := by
      simp [countUsernameTxns]
    have habortev : countUsernameTxns [Event.txnUsernameAbort name] = 1 := by
      simp [countUsernameTxns]
    have hcommitev :
        countUsernameTxns [Event.txnUsernameCommit name (env.usernameServerTime attempt)] = 1 := by
      simp [countUsernameTxns]
    have hnil : countUsernameTxns ([] : List Event) = 0 := rfl
    cases hatt : decide (1 < attempt) with
    | true =>
      rcases hlk : lookupKey (extApply env attempt name st).usernames name
        with _ | d
      · cases hf : env.usernameTxnFault attempt with
        | true =>
          cases hre : rest.isEmpty with
          | true =>
            simp only [usernameLoop, hatt, hlk, hf, hre, if_true,
              Option.isSome_none, Bool.and_false, Bool.false_eq_true, if_false]
            rw [countUsernameTxns_append]
            simp only [List.length_cons]
            omega
          | false =>
            simp only [usernameLoop, hatt, hlk, hf, hre, if_true,
              Option.isSome_none, Bool.and_false, Bool.false_eq_true, if_false]
            rw [countUsernameTxns_append, countUsernameTxns_append]
            simp only [List.length_cons]
            omega
        | false =>
          simp only [usernameLoop, hatt, hlk, hf, if_true,
            Option.isSome_none, Bool.and_false, Bool.false_eq_true, if_false]
          rw [countUsernameTxns_append]
          simp only [List.length_cons]
          omega
      · simp only [usernameLoop, hatt, hlk, if_true, Option.isSome_some,
          Bool.and_self, List.length_cons]
        simp [countUsernameTxns]
    | false =>
      cases hf : env.usernameTxnFault attempt with
      | true =>
        cases hre : rest.isEmpty with
        | true =>
          simp only [usernameLoop, hatt, hf, hre, Bool.false_and,
            Bool.false_eq_true, if_false, if_true]
          rw [countUsernameTxns_append]
          simp only [List.length_cons]
          omega
        | false =>
          simp only [usernameLoop, hatt, hf, hre, Bool.false_and,
            Bool.false_eq_true, if_false, if_true]
          rw [countUsernameTxns_append, countUsernameTxns_append]
          simp only [List.length_cons]
          omega
      | false =>
        rcases hlk : lookupKey (extApply env attempt name st).usernames name
          with _ | d
        · simp only [usernameLoop, hatt, hf, hlk, Bool.false_and,
            Bool.false_eq_true, if_false]
          rw [countUsernameTxns_append]
          simp only [List.length_cons]
          omega
        · cases hre : rest.isEmpty with
          | true =>
            simp only [usernameLoop, hatt, hf, hlk, hre, Bool.false_and,
              Bool.false_eq_true, if_false, if_true]
            rw [countUsernameTxns_append]
            simp only [List.length_cons]
            omega
          | false =>
            simp only [usernameLoop, hatt, hf, hlk, hre, Bool.false_and,
              Bool.false_eq_true, if_false, if_true]
            rw [countUsernameTxns_append, countUsernameTxns_append]
            simp only [List.length_cons]
            omega

lemma usernameLoop_recheck_failfast (env : EnvA) (name : String)
    (attempt : Nat) (rest : List Nat) (st : StoreState)
    (hatt : 1 < attempt)
    (hpresent :
      (lookupKey (extApply env attempt name st).usernames name).isSome = true) :
    usernameLoop env name (attempt :: rest) st =
      (.error ⟨.alreadyExists, "username already taken"⟩,
        extApply env attempt name st, [.readUsernames name]) := by
  rw [usernameLoop]
  simp [hatt, hpresent]

lemma usernameLoop_all_fault3 (env : EnvA) (name : String) (st : StoreState)
    (hext : ∀ i, env.extWriteBefore i = none)
    (hname : lookupKey st.usernames name = none)
    (hf : ∀ i, env.usernameTxnFault i = true) :
    usernameLoop env name [1, 2, 3] st =
      (.error ⟨.internal, "Something is wrong"⟩, st,
        [.txnUsernameFault name, .readUsernames name, .txnUsernameFault name,
          .readUsernames name, .txnUsernameFault name]) := by
  rw [usernameLoop, usernameLoop, usernameLoop]
  simp [extApply, hext 1, hext 2, hext 3, hf 1, hf 2, hf 3, hname]

lemma createNewUser_reservefail_eval (env : EnvA) (ctx : CallCtx)
    (input : CallInput) (st : StoreState) (uid : String) (r : UserRecord)
    (raw : String)
    (hauth : ctx.auth = some uid) (hget : ctx.getUser = .ok r)
    (hver : r.emailVerified = true) (hraw : input.username = some raw)
    (hval : usernameRegexTest (jsTrim raw) = true)
    (huser : lookupKey st.users uid = none)
    (hname : lookupKey st.usernames (jsTrim raw) = none)
    (hext : ∀ i, env.extWriteBefore i = none)
    (hf : ∀ i, env.usernameTxnFault i = true) :
    createNewUser env ctx input st =
      (.error ⟨.internal, "Something is wrong"⟩, st,
        [.getUserRecord uid, .readUsers uid, .readUsernames (jsTrim raw),
          .txnUsernameFault (jsTrim raw), .readUsernames (jsTrim raw),
          .txnUsernameFault (jsTrim raw), .readUsernames (jsTrim raw),
          .txnUsernameFault (jsTrim raw)]) := by
  unfold createNewUser
  rw [hauth, hget, hraw]
  simp only [hver, Bool.not_true]
  rw [usernameLoop_all_fault3 env (jsTrim raw) st hext hname hf]
  simp [hval, huser, hname]

lemma bLoop_txn_bound (env : EnvB) (uid name email : String) :
    ∀ (atts : List Nat) (st : StoreState),
      countBTxns (bLoop env uid name email atts st).2.2 ≤ atts.length := by
  intro atts
  induction atts with
  | nil => intro st; simp [bLoop, countBTxns]
  | cons attempt rest ih =>
    intro st
    have hrec := ih st
    have hsleep : ∀ ms, countBTxns [Event.sleep ms] = 0 := by
      intro ms; simp [countBTxns]
    have hfaultev : countBTxns [Event.txnBFault uid] = 1 := by
      simp [countBTxns]
    have huexev : countBTxns [Event.txnBUserExists uid] = 1 := by
      simp [countBTxns]
    have htakenev : countBTxns [Event.txnBUsernameTaken name] = 1 := by
      simp [countBTxns]
    have hcommitev :
        countBTxns [Event.txnBCommit uid name (env.serverTime attempt)] = 1 := by
      simp [countBTxns]
    have hnil : countBTxns ([] : List Event) = 0 := rfl
    have hsleeplist :
        countBTxns (if decide (1 < attempt) = true
          then [Event.sleep 500] else []) = 0 := by
      cases decide (1 < attempt) <;> simp [countBTxns]
    cases hf : env.txnFault attempt with
    | true =>
      cases hre : rest.isEmpty with
      | true =>
        simp only [bLoop, hf, hre, if_true]
        rw [countBTxns_append]
        simp only [List.length_cons]
        omega
      | false =>
        simp only [bLoop, hf, hre, Bool.false_eq_true, if_false,
          eq_self_iff_true, if_true]
        rw [countBTxns_append, countBTxns_append]
        simp only [List.length_cons]
        omega
    | false =>
      rcases hlu : lookupKey st.users uid with _ | d
      · rcases hln : lookupKey st.usernames name with _ | d2
        · simp only [bLoop, hf, hlu, hln, Option.isSome_none,
            Bool.false_eq_true, if_false]
          rw [countBTxns_append]
          simp only [List.length_cons]
          omega
        · simp only [bLoop, hf, hlu, hln, Option.isSome_none,
            Option.isSome_some, Bool.false_eq_true, if_false, if_true]
          rw [countBTxns_append]
          simp only [List.length_cons]
          omega
      · cases hre : rest.isEmpty with
        | true =>
          simp only [bLoop, hf, hlu, hre, Option.isSome_some,
            Bool.false_eq_true, if_false, if_true]
          rw [countBTxns_append]
          simp only [List.length_cons]
          omega
        | false =>
          simp only [bLoop, hf, hlu, hre, Option.isSome_some,
            Bool.false_eq_true, if_false, if_true]
          rw [countBTxns_append, countBTxns_append]
          simp only [List.length_cons]
          omega

lemma bLoop_all_fault (env : EnvB) (uid name email : String) (st : StoreState)
    (hf : ∀ i, env.txnFault i = true) :
    bLoop env uid name email [1, 2, 3] st =
      (.error ⟨.internal, "Something is wrong"⟩, st,
        [.txnBFault uid, .sleep 500, .txnBFault uid, .sleep 500,
          .txnBFault uid]) := by
  rw [bLoop, bLoop, bLoop]
  simp [hf 1, hf 2, hf 3]

lemma bLoop_taken_first (env : EnvB) (uid name email : String)
    (rest : List Nat) (st : StoreState) (d : UsernameDoc)
    (hf1 : env.txnFault 1 = false)
    (hlu : lookupKey st.users uid = none)
    (hn : lookupKey st.usernames name = some d) :
    bLoop env uid name email (1 :: rest) st =
      (.error ⟨.alreadyExists, s!"username {name} already taken"⟩, st,
        [.txnBUsernameTaken name]) := by
  rw [bLoop]
  simp [hf1, hlu, hn]

lemma deleteWithRetry_all_contended (env : DelEnv) (uid : String) (ms : Nat) :
    ∀ (atts : List Nat) (st : StoreState),
      atts ≠ [] →
      (lookupKey st.queue uid).isSome = true →
      (∀ i ∈ atts, ∃ e, env.deleteFault i = some e ∧ isLockedError e = true) →
      (deleteWithRetry env uid ms atts st).1 = false ∧
      (deleteWithRetry env uid ms atts st).2.1 = st ∧
      countDeletes (deleteWithRetry env uid ms atts st).2.2 = atts.length ∧
      countSleeps ms (deleteWithRetry env uid ms atts st).2.2 =
        atts.length - 1 := by
  intro atts
  induction atts with
  | nil => intro st hne; exact absurd rfl hne
  | cons attempt rest ih =>
    intro st _hne hpres hf
    obtain ⟨e, hfa, hlock⟩ := hf attempt (List.mem_cons_self attempt rest)
    have hpres' : (lookupKey st.queue uid).isNone = false := by
      rcases hlk : lookupKey st.queue uid with _ | d
      · rw [hlk] at hpres; simp at hpres
      · simp
    cases rest with
    | nil =>
      rw [deleteWithRetry]
      simp [hpres', hfa, hlock, countDeletes, countSleeps, isSleep]
    | cons b bs =>
      have ihx := ih st (by simp) hpres
        (fun i hi => hf i (List.mem_cons_of_mem attempt hi))
      rw [deleteWithRetry]
      simp only [hpres', hfa, hlock, Bool.false_eq_true, if_false,
        List.isEmpty_cons, Bool.not_false, Bool.and_self, if_true]
      refine ⟨ihx.1, ihx.2.1, ?_, ?_⟩
      · rw [countDeletes_append]
        have h1 : countDeletes [Event.readQueue uid, Event.deleteQueue uid,
            Event.sleep ms] = 1 := by simp [countDeletes]
        have h2 := ihx.2.2.1
        simp only [List.length_cons] at h2 ⊢
        omega
      · rw [countSleeps_append]
        have h1 : countSleeps ms [Event.readQueue uid, Event.deleteQueue uid,
            Event.sleep ms] = 1 := by simp [countSleeps, isSleep]
        have h2 := ihx.2.2.2
        simp only [List.length_cons] at h2 ⊢
        omega

/-- Empty store. -/
def emptyState : StoreState := ⟨[], [], [], []⟩

/-- An email-verified auth record. -/
def verifiedRecord : UserRecord := ⟨true, "a@b.c"⟩

/-- A fully authorized caller. -/
def ctxCallerOne : CallCtx := ⟨true, some "uid_one", .ok verifiedRecord⟩

/-- A second fully authorized caller. -/
def ctxCallerTwo : CallCtx := ⟨true, some "uid_two", .ok verifiedRecord⟩

/-- A caller whose auth-record lookup fails with an already-classified
HttpsError. -/
def ctxGateDown : CallCtx :=
  ⟨true, some "uid_one", .error (.httpsError ⟨.unauthenticated, "token revoked"⟩)⟩

/-- A valid username input. -/
def inputGood : CallInput := ⟨some "testuser123"⟩

/-- A too-short username input. -/
def inputShort : CallInput := ⟨some "ab"⟩

/-- Strategy A environment with no faults. -/
def envANoFault : EnvA :=
  ⟨fun _ => none, fun _ => false, fun _ => 7, fun _ => false, false⟩

/-- Strategy A environment where every UserIdentity attempt faults. -/
def envAUserFault : EnvA :=
  ⟨fun _ => none, fun _ => false, fun _ => 7, fun _ => true, false⟩

/-- Strategy A environment where every reservation attempt faults. -/
def envAReserveFault : EnvA :=
  ⟨fun _ => none, fun _ => true, fun _ => 7, fun _ => false, false⟩

/-- Strategy A environment where attempt 1 faults and a concurrent writer
takes the username before attempt 2. -/
def envARaceAtTwo : EnvA :=
  ⟨fun i => if i == 2 then some 5 else none, fun _ => true, fun _ => 7,
    fun _ => false, false⟩

/-- Strategy B environment with no faults. -/
def envBNoFault : EnvB := ⟨fun _ => false, fun _ => 9⟩

/-- Strategy B environment where every transaction attempt faults. -/
def envBAllFault : EnvB := ⟨fun _ => true, fun _ => 9⟩

/-- A contended delete failure. -/
def lockedFault : JsErrInfo := ⟨some "aborted", "transaction aborted"⟩

/-- A non-contended delete failure. -/
def plainFault : JsErrInfo := ⟨some "permission-denied", "missing permission"⟩

/-- Delete environment where every delete reports contention. -/
def envDelContended : DelEnv := ⟨fun _ => some lockedFault⟩

/-- Delete environment where every delete fails non-contended. -/
def envDelPlainFail : DelEnv := ⟨fun _ => some plainFault⟩

/-- A store where caller one is online and enqueued. -/
def queueOneState : StoreState :=
  ⟨[], [], ["uid_one"], [("uid_one", ⟨"uid_one", 1, "waiting"⟩)]⟩

/-- A store where caller one is online and not enqueued. -/
def presenceOneState : StoreState := ⟨[], [], ["uid_one"], []⟩

/-- Claim C4: for every authorized caller, leaveQueue reports success:
whatever the delete environment and store state, the handler result is
the plain success response, so a deletion failure, contention through
the whole budget, or an absent entry is never surfaced to the caller. -/
theorem cancelQuickMatch_always_success (env : DelEnv) (ctx : CallCtx)
    (st : StoreState) (uid : String)
    (hok : (validateAuthAndEmail ctx).1 = .ok uid) :
    (cancelQuickMatchHandler env ctx st).1 = .ok ⟨true, none, none⟩ := by
  rcases hv : validateAuthAndEmail ctx with ⟨r, tr⟩
  rw [hv] at hok
  unfold cancelQuickMatchHandler
  simp only [hv]
  cases r with
  | error e => simp at hok
  | ok u => rfl

/-- Witness for C4: a concrete authorized caller with a permanently
contended queue entry still receives success. -/
theorem cancelQuickMatch_always_success_witness :
    (cancelQuickMatchHandler envDelContended ctxCallerOne queueOneState).1 =
      .ok ⟨true, none, none⟩ :=
  cancelQuickMatch_always_success envDelContended ctxCallerOne queueOneState
    "uid_one" rfl

/-- Claim C10: when the auth-gate user-record lookup fails, with any error
value including an already-classified HttpsError, each of the four
operations surfaces internal "Failed to retrieve user information" (so
never unauthenticated or failed-precondition), leaves the store unchanged
and performs no store access before failing. -/
theorem gateLookupFailure_internal (env : EnvA) (envb : EnvB) (denv : DelEnv)
    (ctx : CallCtx) (input : CallInput) (st : StoreState) (serverTime : Nat)
    (uid : String) (e : JsError)
    (happ : ctx.app = true) (hauth : ctx.auth = some uid)
    (hget : ctx.getUser = .error e) :
    ((createNewUser env ctx input st).1 =
        .error ⟨.internal, "Failed to retrieve user information"⟩ ∧
      (createNewUser env ctx input st).2.1 = st ∧
      (createNewUser env ctx input st).2.2.filter isStoreAccess = []) ∧
    ((createNewUserHandler envb ctx input st).1 =
        .error ⟨.internal, "Failed to retrieve user information"⟩ ∧
      (createNewUserHandler envb ctx input st).2.1 = st ∧
      (createNewUserHandler envb ctx input st).2.2.filter isStoreAccess = []) ∧
    ((quickMatchHandler ctx serverTime st).1 =
        .error ⟨.internal, "Failed to retrieve user information"⟩ ∧
      (quickMatchHandler ctx serverTime st).2.1 = st ∧
      (quickMatchHandler ctx serverTime st).2.2.filter isStoreAccess = []) ∧
    ((cancelQuickMatchHandler denv ctx st).1 =
        .error ⟨.internal, "Failed to retrieve user information"⟩ ∧
      (cancelQuickMatchHandler denv ctx st).2.1 = st ∧
      (cancelQuickMatchHandler denv ctx st).2.2.filter isStoreAccess = []) := by
  have hv : validateAuthAndEmail ctx =
      (.error ⟨.internal, "Failed to retrieve user information"⟩,
        [.getUserRecord uid]) := by
    unfold validateAuthAndEmail
    rw [hauth, hget]
    simp [happ]
  refine ⟨?_, ?_, ?_, ?_⟩
  · refine ⟨?_, ?_, ?_⟩ <;> simp [createNewUser, hauth, hget, isStoreAccess]
  · refine ⟨?_, ?_, ?_⟩ <;>
      simp [createNewUserHandler, happ, hauth, hget, isStoreAccess]
  · refine ⟨?_, ?_, ?_⟩ <;> simp [quickMatchHandler, hv, isStoreAccess]
  · refine ⟨?_, ?_, ?_⟩ <;> simp [cancelQuickMatchHandler, hv, isStoreAccess]

/-- Witness for C10: a concrete caller whose lookup fails with a
classified unauthenticated HttpsError still gets internal. -/
theorem gateLookupFailure_internal_witness :
    ((createNewUser envANoFault ctxGateDown inputGood emptyState).1 =
        .error ⟨.internal, "Failed to retrieve user information"⟩ ∧
      (createNewUser envANoFault ctxGateDown inputGood emptyState).2.1 =
        emptyState ∧
      (createNewUser envANoFault ctxGateDown inputGood
        emptyState).2.2.filter isStoreAccess = []) ∧
    ((createNewUserHandler envBNoFault ctxGateDown inputGood emptyState).1 =
        .error ⟨.internal, "Failed to retrieve user information"⟩ ∧
      (createNewUserHandler envBNoFault ctxGateDown inputGood emptyState).2.1 =
        emptyState ∧
      (createNewUserHandler envBNoFault ctxGateDown inputGood
        emptyState).2.2.filter isStoreAccess = []) ∧
    ((quickMatchHandler ctxGateDown 5 emptyState).1 =
        .error ⟨.internal, "Failed to retrieve user information"⟩ ∧
      (quickMatchHandler ctxGateDown 5 emptyState).2.1 = emptyState ∧
      (quickMatchHandler ctxGateDown 5 emptyState).2.2.filter isStoreAccess = []) ∧
    ((cancelQuickMatchHandler envDelContended ctxGateDown emptyState).1 =
        .error ⟨.internal, "Failed to retrieve user information"⟩ ∧
      (cancelQuickMatchHandler envDelContended ctxGateDown emptyState).2.1 =
        emptyState ∧
      (cancelQuickMatchHandler envDelContended ctxGateDown
        emptyState).2.2.filter isStoreAccess = []) :=
  gateLookupFailure_internal envANoFault envBNoFault envDelContended ctxGateDown
    inputGood emptyState 5 "uid_one"
    (.httpsError ⟨.unauthenticated, "token revoked"⟩) rfl rfl rfl

/-- Claim C9: for an authorized, email-verified caller, an input whose
username is missing or not a string, or whose trimmed value fails the
regex, makes both reservation handlers fail with invalid-argument while
the store is unchanged and the trace holds no mutation event. -/
theorem invalidUsername_rejected (env : EnvA) (envb : EnvB) (ctx : CallCtx)
    (input : CallInput) (st : StoreState) (uid : String) (r : UserRecord)
    (happ : ctx.app = true) (hauth : ctx.auth = some uid)
    (hget : ctx.getUser = .ok r) (hver : r.emailVerified = true)
    (hbad : ∀ raw, input.username = some raw →
      usernameRegexTest (jsTrim raw) = false) :
    ((∃ m, (createNewUser env ctx input st).1 =
        .error ⟨.invalidArgument, m⟩) ∧
      (createNewUser env ctx input st).2.1 = st ∧
      (createNewUser env ctx input st).2.2.filter isMutation = []) ∧
    ((∃ m, (createNewUserHandler envb ctx input st).1 =
        .error ⟨.invalidArgument, m⟩) ∧
      (createNewUserHandler envb ctx input st).2.1 = st ∧
      (createNewUserHandler envb ctx input st).2.2.filter isMutation = []) := by
  rcases hinp : input.username with _ | raw
  · constructor
    · refine ⟨⟨"username is required and must be a string", ?_⟩, ?_, ?_⟩ <;>
        simp [createNewUser, hauth, hget, hver, hinp, isMutation]
    · refine ⟨⟨"username is required and must be a string", ?_⟩, ?_, ?_⟩ <;>
        simp [createNewUserHandler, happ, hauth, hget, hver, hinp, isMutation]
  · have hreg := hbad raw hinp
    constructor
    · refine ⟨⟨"username rules failed", ?_⟩, ?_, ?_⟩ <;>
        simp [createNewUser, hauth, hget, hver, hinp, hreg, isMutation]
    · refine ⟨⟨"username rules failed", ?_⟩, ?_, ?_⟩ <;>
        simp [createNewUserHandler, happ, hauth, hget, hver, hinp, hreg,
          isMutation]

/-- Witness for C9: the concrete too-short username "ab" is rejected by
both handlers with invalid-argument and no store change. -/
theorem invalidUsername_rejected_witness :
    ((∃ m, (createNewUser envANoFault ctxCallerOne inputShort emptyState).1 =
        .error ⟨.invalidArgument, m⟩) ∧
      (createNewUser envANoFault ctxCallerOne inputShort emptyState).2.1 =
        emptyState ∧
      (createNewUser envANoFault ctxCallerOne inputShort
        emptyState).2.2.filter isMutation = []) ∧
    ((∃ m, (createNewUserHandler envBNoFault ctxCallerOne inputShort
        emptyState).1 = .error ⟨.invalidArgument, m⟩) ∧
      (createNewUserHandler envBNoFault ctxCallerOne inputShort
        emptyState).2.1 = emptyState ∧
      (createNewUserHandler envBNoFault ctxCallerOne inputShort
        emptyState).2.2.filter isMutation = []) :=
  invalidUsername_rejected envANoFault envBNoFault ctxCallerOne inputShort
    emptyState "uid_one" verifiedRecord rfl rfl rfl rfl
    (fun raw h => by
      injection h with h1
      subst h1
      decide)

/-- Claim C1: when the reservation commits and the UserIdentity phase
exhausts its 3 attempts, Strategy A fails with internal "Something is
Wrong" and issues the compensating delete; the delete faulting does not
change that outcome, and when the delete does not fault the username key
is gone and a different caller subsequently reserves the same username
successfully. -/
theorem rollback_after_identity_exhaustion
    (env env2 : EnvA) (ctx ctx2 : CallCtx) (input : CallInput)
    (st : StoreState) (uid uid2 : String) (r r2 : UserRecord) (raw : String)
    (hauth : ctx.auth = some uid) (hget : ctx.getUser = .ok r)
    (hver : r.emailVerified = true) (hraw : input.username = some raw)
    (hval : usernameRegexTest (jsTrim raw) = true)
    (huser : lookupKey st.users uid = none)
    (hname : lookupKey st.usernames (jsTrim raw) = none)
    (hext1 : env.extWriteBefore 1 = none)
    (hf1 : env.usernameTxnFault 1 = false)
    (hu1 : env.userTxnFault 1 = true) (hu2 : env.userTxnFault 2 = true)
    (hu3 : env.userTxnFault 3 = true)
    (hauth2 : ctx2.auth = some uid2) (hget2 : ctx2.getUser = .ok r2)
    (hver2 : r2.emailVerified = true)
    (huser2 : lookupKey st.users uid2 = none)
    (hext21 : env2.extWriteBefore 1 = none)
    (hf21 : env2.usernameTxnFault 1 = false)
    (huf21 : env2.userTxnFault 1 = false) :
    (createNewUser env ctx input st).1 =
      .error ⟨.internal, "Something is Wrong"⟩ ∧
    Event.removeUsername (jsTrim raw) ∈ (createNewUser env ctx input st).2.2 ∧
    (env.removeFault = false →
      lookupKey (createNewUser env ctx input st).2.1.usernames (jsTrim raw) =
        none ∧
      (createNewUser env2 ctx2 input (createNewUser env ctx input st).2.1).1 =
        .ok ⟨true, some (jsTrim raw), some uid2⟩) := by
  have heval := createNewUser_userfail_eval env ctx input st uid r raw
    hauth hget hver hraw hval huser hname hext1 hf1 hu1 hu2 hu3
  refine ⟨?_, ?_, ?_⟩
  · rw [heval]
  · rw [heval]
    simp [compensateRemove_trace]
  · intro hrf
    have hS : (createNewUser env ctx input st).2.1 =
        { st with usernames := (removeKey ((jsTrim raw, ⟨env.usernameServerTime 1⟩) :: st.usernames) (jsTrim raw)) } := by
      rw [heval]
      dsimp only
      rw [compensateRemove_state_noFault env (jsTrim raw) _ hrf]
    constructor
    · rw [hS]
      exact lookupKey_removeKey _ _
    · have husers :
          lookupKey (createNewUser env ctx input st).2.1.users uid2 = none := by
        rw [hS]; exact huser2
      have hnames :
          lookupKey (createNewUser env ctx input st).2.1.usernames (jsTrim raw) =
            none := by
        rw [hS]; exact lookupKey_removeKey _ _
      rw [createNewUser_happy env2 ctx2 input
        ((createNewUser env ctx input st).2.1) uid2 r2 raw hauth2 hget2 hver2
        hraw hval husers hnames hext21 hf21 huf21]

/-- Witness for C1: the concrete exhaustion run deletes the reservation
and the second caller then succeeds with the same username. -/
theorem rollback_after_identity_exhaustion_witness :
    (createNewUser envAUserFault ctxCallerOne inputGood emptyState).1 =
      .error ⟨.internal, "Something is Wrong"⟩ ∧
    Event.removeUsername (jsTrim "testuser123") ∈
      (createNewUser envAUserFault ctxCallerOne inputGood emptyState).2.2 ∧
    (envAUserFault.removeFault = false →
      lookupKey (createNewUser envAUserFault ctxCallerOne inputGood
        emptyState).2.1.usernames (jsTrim "testuser123") = none ∧
      (createNewUser envANoFault ctxCallerTwo inputGood
        (createNewUser envAUserFault ctxCallerOne inputGood
          emptyState).2.1).1 =
        .ok ⟨true, some (jsTrim "testuser123"), some "uid_two"⟩) :=
  rollback_after_identity_exhaustion envAUserFault envANoFault ctxCallerOne
    ctxCallerTwo inputGood emptyState "uid_one" "uid_two" verifiedRecord
    verifiedRecord "testuser123" rfl rfl rfl rfl (by decide) rfl rfl rfl rfl
    rfl rfl rfl rfl rfl rfl rfl rfl rfl rfl

/-- Claim C2: on every successful reservation, in both strategies, the
created_at stored on the UsernameReservation equals the created_at stored
on the UserIdentity: the identity write reuses the committed reservation
timestamp. -/
theorem timestamp_agreement (env : EnvA) (envb : EnvB) (ctx : CallCtx)
    (input : CallInput) (st st2 : StoreState) (uid : String) (r : UserRecord)
    (raw : String) (resp resp2 : Response)
    (hauth : ctx.auth = some uid) (hget : ctx.getUser = .ok r)
    (hraw : input.username = some raw) :
    ((createNewUser env ctx input st).1 = .ok resp →
      ∃ ts,
        lookupKey (createNewUser env ctx input st).2.1.usernames
          (jsTrim raw) = some ⟨ts⟩ ∧
        lookupKey (createNewUser env ctx input st).2.1.users uid =
          some ⟨ts, jsTrim raw, r.email⟩) ∧
    ((createNewUserHandler envb ctx input st2).1 = .ok resp2 →
      ∃ ts,
        lookupKey (createNewUserHandler envb ctx input st2).2.1.usernames
          (jsTrim raw) = some ⟨ts⟩ ∧
        lookupKey (createNewUserHandler envb ctx input st2).2.1.users uid =
          some ⟨ts, jsTrim raw, r.email⟩) :=
  ⟨fun h =>
    (createNewUser_ok_charac env ctx input st uid r raw resp hauth hget
      hraw h).2,
   fun h =>
    (createNewUserHandler_ok_charac envb ctx input st2 uid r raw resp2 hauth
      hget hraw h).2⟩

/-- Witness for C2: the concrete successful runs store the same
created_at on both records, in each strategy. -/
theorem timestamp_agreement_witness :
    (∃ ts,
      lookupKey (createNewUser envANoFault ctxCallerOne inputGood
        emptyState).2.1.usernames (jsTrim "testuser123") = some ⟨ts⟩ ∧
      lookupKey (createNewUser envANoFault ctxCallerOne inputGood
        emptyState).2.1.users "uid_one" =
        some ⟨ts, jsTrim "testuser123", verifiedRecord.email⟩) ∧
    (∃ ts,
      lookupKey (createNewUserHandler envBNoFault ctxCallerOne inputGood
        emptyState).2.1.usernames (jsTrim "testuser123") = some ⟨ts⟩ ∧
      lookupKey (createNewUserHandler envBNoFault ctxCallerOne inputGood
        emptyState).2.1.users "uid_one" =
        some ⟨ts, jsTrim "testuser123", verifiedRecord.email⟩) :=
  ⟨(timestamp_agreement envANoFault envBNoFault ctxCallerOne inputGood
      emptyState emptyState "uid_one" verifiedRecord "testuser123"
      ⟨true, some "testuser123", some "uid_one"⟩ ⟨true, none, none⟩
      rfl rfl rfl).1 rfl,
   (timestamp_agreement envANoFault envBNoFault ctxCallerOne inputGood
      emptyState emptyState "uid_one" verifiedRecord "testuser123"
      ⟨true, some "testuser123", some "uid_one"⟩ ⟨true, none, none⟩
      rfl rfl rfl).2 rfl⟩

/-- Counterexample for C7: a successful Strategy B reservation returns
only success, with no username and no uid field in the response. -/
theorem success_shape_counterexample :
    (createNewUserHandler envBNoFault ctxCallerOne inputGood emptyState).1 =
      .ok ⟨true, none, none⟩ ∧
    (⟨true, none, none⟩ : Response).username = none := ⟨rfl, rfl⟩

/-- Claim C7 as amended: a successful Strategy A call returns success,
the trimmed username and the caller uid, while a successful Strategy B
call returns success only, with neither username nor uid. -/
theorem reserveIdentity_success_shape (env : EnvA) (envb : EnvB)
    (ctx : CallCtx) (input : CallInput) (st st2 : StoreState) (uid : String)
    (r : UserRecord) (raw : String) (resp resp2 : Response)
    (hauth : ctx.auth = some uid) (hget : ctx.getUser = .ok r)
    (hraw : input.username = some raw) :
    ((createNewUser env ctx input st).1 = .ok resp →
      resp = ⟨true, some (jsTrim raw), some uid⟩) ∧
    ((createNewUserHandler envb ctx input st2).1 = .ok resp2 →
      resp2 = ⟨true, none, none⟩) :=
  ⟨fun h =>
    (createNewUser_ok_charac env ctx input st uid r raw resp hauth hget
      hraw h).1,
   fun h =>
    (createNewUserHandler_ok_charac envb ctx input st2 uid r raw resp2 hauth
      hget hraw h).1⟩

/-- Witness for the amended C7: the concrete successful runs have exactly
the stated response shapes. -/
theorem reserveIdentity_success_shape_witness :
    (⟨true, some "testuser123", some "uid_one"⟩ : Response) =
      ⟨true, some (jsTrim "testuser123"), some "uid_one"⟩ ∧
    (⟨true, none, none⟩ : Response) = ⟨true, none, none⟩ :=
  ⟨(reserveIdentity_success_shape envANoFault envBNoFault ctxCallerOne
      inputGood emptyState emptyState "uid_one" verifiedRecord "testuser123"
      ⟨true, some "testuser123", some "uid_one"⟩ ⟨true, none, none⟩
      rfl rfl rfl).1 rfl,
   (reserveIdentity_success_shape envANoFault envBNoFault ctxCallerOne
      inputGood emptyState emptyState "uid_one" verifiedRecord "testuser123"
      ⟨true, some "testuser123", some "uid_one"⟩ ⟨true, none, none⟩
      rfl rfl rfl).2 rfl⟩

/-- Claim C8: joinQueue admits on presence and queue absence only: a
missing presence marker yields "User Not Online", an existing QueueEntry
yields "User Already Waiting to be matched", and otherwise the entry is
written and success returned; the users keyspace is never touched, so no
UserIdentity is required. -/
theorem joinQueue_presence_only (ctx : CallCtx) (serverTime : Nat)
    (st : StoreState) (uid : String)
    (hok : (validateAuthAndEmail ctx).1 = .ok uid) :
    (st.presence.contains uid = false →
      (quickMatchHandler ctx serverTime st).1 =
        .error ⟨.failedPrecondition, "User Not Online"⟩ ∧
      (quickMatchHandler ctx serverTime st).2.1 = st) ∧
    (st.presence.contains uid = true →
      (lookupKey st.queue uid).isSome = true →
      (quickMatchHandler ctx serverTime st).1 =
        .error ⟨.alreadyExists, "User Already Waiting to be matched"⟩ ∧
      (quickMatchHandler ctx serverTime st).2.1 = st) ∧
    (st.presence.contains uid = true →
      lookupKey st.queue uid = none →
      (quickMatchHandler ctx serverTime st).1 = .ok ⟨true, none, none⟩ ∧
      lookupKey (quickMatchHandler ctx serverTime st).2.1.queue uid =
        some ⟨uid, serverTime, "waiting"⟩) ∧
    ((quickMatchHandler ctx serverTime st).2.2.filter touchesUsers = [] ∧
      (quickMatchHandler ctx serverTime st).2.1.users = st.users) := by
  rcases hv : validateAuthAndEmail ctx with ⟨rr, tr⟩
  rw [hv] at hok
  dsimp only at hok
  subst hok
  have hg := (validateAuthAndEmail_gate_only ctx).2
  rw [hv] at hg
  dsimp only at hg
  refine ⟨?_, ?_, ?_, ?_⟩
  · intro hoff
    have hoff2 : uid ∉ st.presence := by simpa using hoff
    constructor <;> simp [quickMatchHandler, hv, hoff2]
  · intro hon hq
    have hon2 : uid ∈ st.presence := by simpa using hon
    constructor <;> simp [quickMatchHandler, hv, hon2, hq]
  · intro hon hq
    have hon2 : uid ∈ st.presence := by simpa using hon
    constructor
    · simp [quickMatchHandler, hv, hon2, hq]
    · simp [quickMatchHandler, hv, hon2, hq, lookupKey_cons_self]
  · cases hon : st.presence.contains uid with
    | false =>
      have hon2 : uid ∉ st.presence := by simpa using hon
      constructor <;>
        simp [quickMatchHandler, hv, hon2, List.filter_append, hg, touchesUsers]
    | true =>
      have hon2 : uid ∈ st.presence := by simpa using hon
      rcases hq : lookupKey st.queue uid with _ | d
      · constructor <;>
          simp [quickMatchHandler, hv, hon2, hq, List.filter_append, hg,
            touchesUsers]
      · constructor <;>
          simp [quickMatchHandler, hv, hon2, hq, List.filter_append, hg,
            touchesUsers]

/-- Witness for C8: an online caller with no identity record is admitted,
and an offline caller is rejected. -/
theorem joinQueue_presence_only_witness :
    ((quickMatchHandler ctxCallerOne 5 presenceOneState).1 =
        .ok ⟨true, none, none⟩ ∧
      lookupKey (quickMatchHandler ctxCallerOne 5
        presenceOneState).2.1.queue "uid_one" =
        some ⟨"uid_one", 5, "waiting"⟩) ∧
    ((quickMatchHandler ctxCallerOne 5 emptyState).1 =
        .error ⟨.failedPrecondition, "User Not Online"⟩ ∧
      (quickMatchHandler ctxCallerOne 5 emptyState).2.1 = emptyState) :=
  ⟨(joinQueue_presence_only ctxCallerOne 5 presenceOneState "uid_one"
      rfl).2.2.1 rfl rfl,
   (joinQueue_presence_only ctxCallerOne 5 emptyState "uid_one" rfl).1 rfl⟩

/-- A store in which the username testuser123 is already reserved. -/
def takenState : StoreState := ⟨[("testuser123", ⟨3⟩)], [], [], []⟩

lemma isNone_false_of_isSome {α : Type} {o : Option α}
    (h : o.isSome = true) : o.isNone = false := by
  cases o <;> simp_all

/-- Claim C3: the Strategy A reservation loop never sleeps, attempts the
create-if-absent at most 3 times, fails fast with already-exists when the
re-read before a retry finds the key, and when every attempt faults the
handler ends with internal "Something is wrong" after exactly 3 attempts
and no sleeps. -/
theorem reservation_loop_retry_policy :
    (∀ (env : EnvA) (name : String) (atts : List Nat) (st : StoreState)
        (ms : Nat),
      Event.sleep ms ∉ (usernameLoop env name atts st).2.2) ∧
    (∀ (env : EnvA) (name : String) (st : StoreState),
      countUsernameTxns (usernameLoop env name [1, 2, 3] st).2.2 ≤ 3) ∧
    (∀ (env : EnvA) (name : String) (attempt : Nat) (rest : List Nat)
        (st : StoreState),
      1 < attempt →
      (lookupKey (extApply env attempt name st).usernames name).isSome = true →
      usernameLoop env name (attempt :: rest) st =
        (.error ⟨.alreadyExists, "username already taken"⟩,
          extApply env attempt name st, [.readUsernames name])) ∧
    (∀ (env : EnvA) (ctx : CallCtx) (input : CallInput) (st : StoreState)
        (uid : String) (r : UserRecord) (raw : String),
      ctx.auth = some uid → ctx.getUser = .ok r → r.emailVerified = true →
      input.username = some raw → usernameRegexTest (jsTrim raw) = true →
      lookupKey st.users uid = none →
      lookupKey st.usernames (jsTrim raw) = none →
      (∀ i, env.extWriteBefore i = none) →
      (∀ i, env.usernameTxnFault i = true) →
      (createNewUser env ctx input st).1 =
        .error ⟨.internal, "Something is wrong"⟩ ∧
      countUsernameTxns (createNewUser env ctx input st).2.2 = 3 ∧
      (∀ ms, Event.sleep ms ∉ (createNewUser env ctx input st).2.2)) := by
  refine ⟨?_, ?_, ?_, ?_⟩
  · exact fun env name atts st ms => usernameLoop_no_sleep env name atts st ms
  · exact fun env name st => usernameLoop_txn_bound env name [1, 2, 3] st
  · exact fun env name attempt rest st hatt hp =>
      usernameLoop_recheck_failfast env name attempt rest st hatt hp
  · intro env ctx input st uid r raw hauth hget hver hraw hval huser hname
      hext hf
    have heval := createNewUser_reservefail_eval env ctx input st uid r raw
      hauth hget hver hraw hval huser hname hext hf
    refine ⟨by rw [heval], ?_, ?_⟩
    · rw [heval]
      simp [countUsernameTxns]
    · intro ms
      rw [heval]
      simp

/-- Witness for C3: the concrete loop runs show no sleeps, at most 3
attempts, the fail-fast re-check, and the exhaustion outcome. -/
theorem reservation_loop_retry_policy_witness :
    Event.sleep 500 ∉
      (usernameLoop envANoFault "testuser123" [1, 2, 3] emptyState).2.2 ∧
    countUsernameTxns
      (usernameLoop envAReserveFault "testuser123" [1, 2, 3]
        emptyState).2.2 ≤ 3 ∧
    usernameLoop envARaceAtTwo "testuser123" (2 :: [3]) emptyState =
      (.error ⟨.alreadyExists, "username already taken"⟩,
        extApply envARaceAtTwo 2 "testuser123" emptyState,
        [.readUsernames "testuser123"]) ∧
    ((createNewUser envAReserveFault ctxCallerOne inputGood emptyState).1 =
        .error ⟨.internal, "Something is wrong"⟩ ∧
      countUsernameTxns (createNewUser envAReserveFault ctxCallerOne
        inputGood emptyState).2.2 = 3 ∧
      (∀ ms, Event.sleep ms ∉ (createNewUser envAReserveFault ctxCallerOne
        inputGood emptyState).2.2)) :=
  ⟨reservation_loop_retry_policy.1 envANoFault "testuser123" [1, 2, 3]
      emptyState 500,
   reservation_loop_retry_policy.2.1 envAReserveFault "testuser123" emptyState,
   reservation_loop_retry_policy.2.2.1 envARaceAtTwo "testuser123" 2 [3]
      emptyState (by decide) (by decide),
   reservation_loop_retry_policy.2.2.2 envAReserveFault ctxCallerOne inputGood
      emptyState "uid_one" verifiedRecord "testuser123" rfl rfl rfl rfl
      (by decide) rfl rfl (fun _ => rfl) (fun _ => rfl)⟩

/-- Claim C5: the delete loop classifies failures with isLockedError;
all-contended runs make exactly 10 delete attempts with a 500ms sleep
between successive attempts, a non-contended failure stops after exactly
1 delete attempt, and an absent entry causes no delete call at all. -/
theorem leaveQueue_delete_classification :
    (∀ (env : DelEnv) (uid : String) (st : StoreState)
        (errf : Nat → JsErrInfo),
      (∀ i, env.deleteFault i = some (errf i)) →
      (∀ i, isLockedError (errf i) = true) →
      (lookupKey st.queue uid).isSome = true →
      (deleteWithRetry env uid 500 (attemptList 10) st).1 = false ∧
      countDeletes (deleteWithRetry env uid 500 (attemptList 10) st).2.2 =
        10 ∧
      countSleeps 500 (deleteWithRetry env uid 500 (attemptList 10) st).2.2 =
        9) ∧
    (∀ (env : DelEnv) (uid : String) (st : StoreState) (e : JsErrInfo),
      env.deleteFault 1 = some e → isLockedError e = false →
      (lookupKey st.queue uid).isSome = true →
      deleteWithRetry env uid 500 (attemptList 10) st =
        (false, st, [.readQueue uid, .deleteQueue uid])) ∧
    (∀ (env : DelEnv) (uid : String) (st : StoreState),
      lookupKey st.queue uid = none →
      deleteWithRetry env uid 500 (attemptList 10) st =
        (true, st, [.readQueue uid])) := by
  have hAtt : attemptList 10 = [1, 2, 3, 4, 5, 6, 7, 8, 9, 10] := by decide
  refine ⟨?_, ?_, ?_⟩
  · intro env uid st errf hf hl hpres
    have h := deleteWithRetry_all_contended env uid 500 (attemptList 10) st
      (by rw [hAtt]; simp) hpres (fun i _ => ⟨errf i, hf i, hl i⟩)
    refine ⟨h.1, ?_, ?_⟩
    · have := h.2.2.1
      rw [hAtt] at this
      simpa using this
    · have := h.2.2.2
      rw [hAtt] at this
      simpa using this
  · intro env uid st e hf1 hnl hpres
    rw [hAtt, deleteWithRetry]
    simp [isNone_false_of_isSome hpres, hf1, hnl]
  · intro env uid st hq
    rw [hAtt, deleteWithRetry]
    simp [hq]

/-- Witness for C5: contended faults give 10 deletes and 9 sleeps, a
permission failure gives a single delete, and an absent entry only the
existence check. -/
theorem leaveQueue_delete_classification_witness :
    ((deleteWithRetry envDelContended "uid_one" 500 (attemptList 10)
        queueOneState).1 = false ∧
      countDeletes (deleteWithRetry envDelContended "uid_one" 500
        (attemptList 10) queueOneState).2.2 = 10 ∧
      countSleeps 500 (deleteWithRetry envDelContended "uid_one" 500
        (attemptList 10) queueOneState).2.2 = 9) ∧
    deleteWithRetry envDelPlainFail "uid_one" 500 (attemptList 10)
        queueOneState =
      (false, queueOneState, [.readQueue "uid_one", .deleteQueue "uid_one"]) ∧
    deleteWithRetry envDelContended "uid_one" 500 (attemptList 10)
        emptyState =
      (true, emptyState, [.readQueue "uid_one"]) :=
  ⟨leaveQueue_delete_classification.1 envDelContended "uid_one" queueOneState
      (fun _ => lockedFault) (fun _ => rfl)
      (fun _ => (by decide : isLockedError lockedFault = true)) rfl,
   leaveQueue_delete_classification.2.1 envDelPlainFail "uid_one"
      queueOneState plainFault rfl (by decide) rfl,
   leaveQueue_delete_classification.2.2 envDelContended "uid_one" emptyState
      rfl⟩

/-- Counterexample for C6: with every transaction attempt faulting,
Strategy B sleeps 500ms between its attempts, contradicting the claimed
absence of an inter-attempt delay, while still making 3 attempts and
ending with internal "Something is wrong". -/
theorem strategyB_delay_counterexample :
    (createNewUserHandler envBAllFault ctxCallerOne inputGood emptyState).1 =
      .error ⟨.internal, "Something is wrong"⟩ ∧
    countBTxns (createNewUserHandler envBAllFault ctxCallerOne inputGood
      emptyState).2.2 = 3 ∧
    countSleeps 500 (createNewUserHandler envBAllFault ctxCallerOne inputGood
      emptyState).2.2 = 2 ∧
    Event.sleep 500 ∈ (createNewUserHandler envBAllFault ctxCallerOne
      inputGood emptyState).2.2 :=
  ⟨rfl, rfl, rfl, by decide⟩

/-- Claim C6 as amended: Strategy B retries the whole transaction up to 3
times with a 500ms sleep before each retry after the first on any failure
that is not a confirmed-taken signal from inside the body; a
confirmed-taken signal surfaces immediately as already-exists
"username <name> already taken" with no further attempt; exhausting the 3
attempts yields internal "Something is wrong". -/
theorem strategyB_retry_policy :
    (∀ (env : EnvB) (uid name email : String) (atts : List Nat)
        (st : StoreState),
      countBTxns (bLoop env uid name email atts st).2.2 ≤ atts.length) ∧
    (∀ (env : EnvB) (uid name email : String) (st : StoreState),
      (∀ i, env.txnFault i = true) →
      bLoop env uid name email [1, 2, 3] st =
        (.error ⟨.internal, "Something is wrong"⟩, st,
          [.txnBFault uid, .sleep 500, .txnBFault uid, .sleep 500,
            .txnBFault uid])) ∧
    (∀ (env : EnvB) (uid name email : String) (rest : List Nat)
        (st : StoreState) (d : UsernameDoc),
      env.txnFault 1 = false → lookupKey st.users uid = none →
      lookupKey st.usernames name = some d →
      bLoop env uid name email (1 :: rest) st =
        (.error ⟨.alreadyExists, s!"username {name} already taken"⟩, st,
          [.txnBUsernameTaken name])) :=
  ⟨fun env uid name email atts st => bLoop_txn_bound env uid name email atts st,
   fun env uid name email st hf => bLoop_all_fault env uid name email st hf,
   fun env uid name email rest st d hf1 hlu hn =>
     bLoop_taken_first env uid name email rest st d hf1 hlu hn⟩

/-- Witness for the amended C6: the all-fault run shows the sleeps and
the exhaustion message, and a taken username stops after one attempt. -/
theorem strategyB_retry_policy_witness :
    countBTxns (bLoop envBNoFault "uid_one" "testuser123" "a@b.c" [1, 2, 3]
      emptyState).2.2 ≤ 3 ∧
    bLoop envBAllFault "uid_one" "testuser123" "a@b.c" [1, 2, 3] emptyState =
      (.error ⟨.internal, "Something is wrong"⟩, emptyState,
        [.txnBFault "uid_one", .sleep 500, .txnBFault "uid_one", .sleep 500,
          .txnBFault "uid_one"]) ∧
    bLoop envBNoFault "uid_one" "testuser123" "a@b.c" (1 :: [2, 3])
        takenState =
      (.error ⟨.alreadyExists, "username testuser123 already taken"⟩,
        takenState, [.txnBUsernameTaken "testuser123"]) :=
  ⟨strategyB_retry_policy.1 envBNoFault "uid_one" "testuser123" "a@b.c"
      [1, 2, 3] emptyState,
   strategyB_retry_policy.2.1 envBAllFault "uid_one" "testuser123" "a@b.c"
      emptyState (fun _ => rfl),
   strategyB_retry_policy.2.2 envBNoFault "uid_one" "testuser123" "a@b.c"
      [2, 3] takenState ⟨3⟩ rfl rfl rfl⟩

end HandCricket
